import Mathlib

/-!
Shallow embedding of the prealignment (decoy-filtering) cascade of the
PEPPRO pipeline (pipelines/peppro.py, version 0.7.4), centred on the
functions `_align_with_bt2` and `_check_bowtie2_index`.

Strings are modelled as Lean `String`s; the command strings are built by
the same concatenations as the Python source.  The pipeline manager `pm`
(pypiper, an external collaborator) is modelled by an explicit trace of
effects (`Effect`): each `pm.run`, `pm.report_result`, `pm.clean_add`,
`ngstk.make_dir`, `os.remove`, `tempfile.mkdtemp` and `print` call emits
one effect, in source order.  Reads of the outside world
(`os.path.exists`, `pm.checkprint` of the grep over the aligner summary,
`pm.get_stat("Trimmed_reads")`, `pm.cores`, the `mkdtemp` result) are
supplied by an `Env` record.
-/

namespace Peppro

/-- Whether the second character list starts with the first one. -/
def leadingMatch : List Char → List Char → Bool
  | [], _ => true
  | _ :: _, [] => false
  | n :: ns, h :: hs => n = h && leadingMatch ns hs

/-- Whether the first character list contains the second one as a
contiguous sublist. -/
def containsSub : List Char → List Char → Bool
  | [], needle => needle.isEmpty
  | h :: t, needle => leadingMatch needle (h :: t) || containsSub t needle

/-- Substring test, modelling the Python operator `in` on strings. -/
def strContains (hay needle : String) : Bool :=
  containsSub hay.data needle.data

/-- Suffix test, modelling Python str.endswith. -/
def strEndsWith (s suffix : String) : Bool :=
  leadingMatch suffix.data.reverse s.data.reverse

/-- Split a character list at every slash, as Python path handling and
str.split do. -/
def splitOnSlash : List Char → List (List Char)
  | [] => [[]]
  | x :: xs =>
    match splitOnSlash xs, decide (x = '/') with
    | r, true => [] :: r
    | [], false => [[x]]
    | h :: t, false => (x :: h) :: t

/-- Join a list of strings with a separator, as Python str.join does. -/
def joinWith (sep : String) : List String → String
  | [] => ""
  | [x] => x
  | x :: y :: xs => x ++ sep ++ joinWith sep (y :: xs)

/-- Model of os.path.join for the calls used here (second component a
relative name). -/
def joinPath (a b : String) : String :=
  if a = "" then b
  else if a.data.getLast? = some '/' then a ++ b
  else a ++ "/" ++ b

/-- Model of os.path.dirname: everything before the final slash. -/
def dirname (p : String) : String :=
  let parts := (splitOnSlash p.data).map String.mk
  if parts.length ≤ 1 then "" else joinWith "/" parts.dropLast

/-- Model of pypiper.build_command: join the chunks with single spaces. -/
def buildCommand (chunks : List String) : String :=
  joinWith " " chunks

/-- Floor of a rational, computed from its normalised fraction. -/
def ratFloor (q : ℚ) : ℤ :=
  Int.fdiv q.num (q.den : ℤ)

/-- Round to the nearest integer, ties to even, as Python round() does. -/
def roundHalfEven (q : ℚ) : ℤ :=
  let n : ℤ := ratFloor q
  let r : ℚ := q - (n : ℚ)
  if r < 1/2 then n
  else if 1/2 < r then n + 1
  else if n % 2 = 0 then n else n + 1

/-- Model of Python round(x, 2): round to two decimal places. -/
def pyRound2 (q : ℚ) : ℚ :=
  (roundHalfEven (q * 100) : ℚ) / 100

/-- The command-line arguments of the pipeline that `_align_with_bt2`
reads (args.genome_assembly, args.sample_name, args.keep). -/
structure Args where
  genome_assembly : String
  sample_name : String
  keep : Bool
  deriving Repr, DecidableEq

/-- The tool paths `_align_with_bt2` reads from `tools`. -/
structure Tools where
  perl : String
  bowtie2 : String
  samtools : String
  deriving Repr, DecidableEq

/-- The outside world as `_align_with_bt2` observes it: `fsExists p`
models os.path.exists(p); `tempdir` the directory tempfile.mkdtemp
returns; `cores` is pm.cores; `pipelineDir` is the directory two levels
above the pipeline script, used by tool_path; `alignExactLine` is the
number on the aligner-summary line containing "aligned exactly 1 time"
(none when pm.checkprint of the grep returns nothing); `trimmedReads` is
float(pm.get_stat("Trimmed_reads")) (none when that raises). -/
structure Env where
  fsExists : String → Bool
  tempdir : String
  cores : Nat
  pipelineDir : String
  alignExactLine : Option Nat
  trimmedReads : Option ℚ

/-- The per-stage parameters of `_align_with_bt2`. -/
structure StageInput where
  paired : Bool
  useFIFO : Bool
  unmap_fq1 : String
  unmap_fq2 : String
  assembly_identifier : String
  assembly_bt2 : String
  outfolder : String
  aligndir : Option String
  bt2_opts_txt : Option String
  dups : Bool
  deriving Repr, DecidableEq

/-- One observable action of the stage, in source order.
`run cmds target wait` models pm.run: `cmds` is the command or serial
list of commands (a list argument to pm.run executes its commands one
after another, each completing before the next starts), `target` the
target file list, and `wait` the value of pm.wait at the call (false
means the dispatch does not block).  `checkprintGrep f` models
pm.checkprint of the grep/awk scan over the summary file `f`. -/
inductive Effect where
  | timestamp (msg : String)
  | makeDir (path : String)
  | removeFile (path : String)
  | makeTempDir (parent : String) (path : String)
  | cleanAdd (path : String)
  | run (cmds : List String) (target : List String) (wait : Bool)
  | checkprintGrep (summaryFile : String)
  | reportResult (key : String) (value : ℚ)
  | printMsg (msg : String)
  deriving Repr, DecidableEq

/-- Line 200 of the source: `if useFIFO and paired and not args.keep`. -/
def fifoSelected (a : Args) (i : StageInput) : Bool :=
  i.useFIFO && i.paired && !a.keep

/-- Lines 169 to 174: the per-stage output directory. -/
def sub_outdir (a : Args) (i : StageInput) : String :=
  match i.aligndir with
  | none => joinPath i.outfolder
      ("aligned_" ++ a.genome_assembly ++ "_" ++ i.assembly_identifier)
  | some d =>
      if d = "" then
        joinPath i.outfolder
          ("aligned_" ++ a.genome_assembly ++ "_" ++ i.assembly_identifier)
      else joinPath i.outfolder d

/-- Lines 177 to 184: BAM file name, depending on dups. -/
def bamname (a : Args) (i : StageInput) : String :=
  a.sample_name ++ "_" ++ i.assembly_identifier ++
    (if i.dups then "_dups.bam" else ".bam")

/-- Lines 177 to 184: aligner summary file name, depending on dups. -/
def summary_name (a : Args) (i : StageInput) : String :=
  a.sample_name ++ "_" ++ i.assembly_identifier ++
    (if i.dups then "_bt_aln_dups_summary.log" else "_bt_aln_summary.log")

/-- Line 185. -/
def mapped_bam (a : Args) (i : StageInput) : String :=
  joinPath (sub_outdir a i) (bamname a i)

/-- Line 186. -/
def summary_file (a : Args) (i : StageInput) : String :=
  joinPath (sub_outdir a i) (summary_name a i)

/-- Lines 188 to 189. -/
def out_fastq_pre (a : Args) (i : StageInput) : String :=
  joinPath (sub_outdir a i) (a.sample_name ++ "_" ++ i.assembly_identifier)

/-- Lines 190 to 195. -/
def out_fastq_r1 (a : Args) (i : StageInput) : String :=
  out_fastq_pre a i ++ (if i.dups then "_unmap_dups_R1.fq" else "_unmap_R1.fq")

/-- Lines 190 to 195. -/
def out_fastq_r2 (a : Args) (i : StageInput) : String :=
  out_fastq_pre a i ++ (if i.dups then "_unmap_dups_R2.fq" else "_unmap_R2.fq")

/-- Line 197. -/
def out_fastq_r1_gz (a : Args) (i : StageInput) : String :=
  out_fastq_r1 a i ++ ".gz"

/-- Line 198. -/
def out_fastq_r2_gz (a : Args) (i : StageInput) : String :=
  out_fastq_r2 a i ++ ".gz"

/-- Lines 200 to 217: the sink of the aligner unaligned-read stream; a
named-pipe path in the FIFO case, an ordinary .fq file path otherwise. -/
def out_fastq_tmp (a : Args) (i : StageInput) : String :=
  if fifoSelected a i then
    joinPath (sub_outdir a i)
      (i.assembly_identifier ++ (if i.dups then "_dups_bt2" else "_bt2"))
  else
    out_fastq_pre a i ++ (if i.dups then "_unmap_dups.fq" else "_unmap.fq")

/-- Line 219. -/
def out_fastq_tmp_gz (a : Args) (i : StageInput) : String :=
  out_fastq_tmp a i ++ ".gz"

/-- Model of tool_path (lines 391 to 399): pipeline dir joined with the
tools folder and the tool name. -/
def tool_path (e : Env) (toolName : String) : String :=
  joinPath (joinPath e.pipelineDir "tools") toolName

/-- Lines 221 to 223: the pairing-filter command. -/
def filter_pair (a : Args) (t : Tools) (e : Env) (i : StageInput) : String :=
  buildCommand [t.perl, tool_path e "filter_paired_fq.pl",
    out_fastq_tmp a i, i.unmap_fq1, i.unmap_fq2,
    out_fastq_r1 a i, out_fastq_r2 a i]

/-- Lines 230 to 233: the default bowtie2 options, used when the caller
passes none (or an empty string, which is falsy in Python). -/
def bt2OptsText (o : Option String) : String :=
  match o with
  | none => "-k 1 -D 20 -R 3 -N 1 -L 20 -i S,1,0.50"
  | some s => if s = "" then "-k 1 -D 20 -R 3 -N 1 -L 20 -i S,1,0.50" else s

/-- Lines 240 to 245: the bowtie2 invocation up to the --un sink. -/
def bt2base (a : Args) (t : Tools) (e : Env) (i : StageInput) : String :=
  "(" ++ t.bowtie2 ++ " -p " ++ toString e.cores
    ++ " " ++ bt2OptsText i.bt2_opts_txt
    ++ " -x " ++ i.assembly_bt2
    ++ " --rg-id " ++ a.sample_name
    ++ " -U " ++ i.unmap_fq1
    ++ " --un " ++ out_fastq_tmp a i

/-- Lines 246 to 258: the full aligner command; with args.keep the mapped
stream is piped through samtools view and sort into mapped_bam, without
it the mapped stream is discarded to /dev/null. -/
def bt2cmd (a : Args) (t : Tools) (e : Env) (i : StageInput) : String :=
  (if a.keep then
    bt2base a t e i
      ++ " | " ++ t.samtools ++ " view -bS - -@ 1"
      ++ " | " ++ t.samtools ++ " sort - -@ 1"
      ++ " -T " ++ e.tempdir
      ++ " -o " ++ mapped_bam a i
  else
    bt2base a t e i ++ " > /dev/null")
  ++ ") 2>" ++ summary_file a i

/-- Lines 200 to 211: in the FIFO case, remove any stale pipe at the
path, then run mkfifo; otherwise nothing. -/
def plumbingEffects (a : Args) (e : Env) (i : StageInput) : List Effect :=
  if fifoSelected a i then
    (if e.fsExists (out_fastq_tmp a i) then
      [Effect.removeFile (out_fastq_tmp a i)]
    else []) ++
    [Effect.run ["mkfifo " ++ out_fastq_tmp a i] [out_fastq_tmp a i] true]
  else []

/-- Lines 260 to 277: the dispatch of the aligner and, for paired input,
of the pairing filter. -/
def runEffects (a : Args) (t : Tools) (e : Env) (i : StageInput) :
    List Effect :=
  if i.paired then
    if a.keep || !i.useFIFO then
      [Effect.run [bt2cmd a t e i, filter_pair a t e i] [mapped_bam a i] true]
    else
      [Effect.run [filter_pair a t e i]
        [summary_file a i, out_fastq_r2_gz a i] false,
       Effect.run [bt2cmd a t e i]
        [summary_file a i, out_fastq_r2_gz a i] true]
  else
    if a.keep then
      [Effect.run [bt2cmd a t e i] [mapped_bam a i] true]
    else
      [Effect.run [bt2cmd a t e i] [out_fastq_tmp_gz a i] true]

/-- Lines 284 to 288: the reported aligned-read figure; the count from
the summary line is doubled unconditionally, and a missing line gives
zero. -/
def alignedReadsStat (e : Env) : ℚ :=
  match e.alignExactLine with
  | some n => (n : ℚ) * 2
  | none => 0

/-- The raw count on the aligned-exactly-once summary line (zero when
the line is absent). -/
def alignExactCount (e : Env) : ℚ :=
  match e.alignExactLine with
  | some n => (n : ℚ)
  | none => 0

/-- Lines 281 to 300: statistics reporting for non-dups stages; the
Alignment_rate report is skipped (with a printed note) when the
Trimmed_reads statistic is unavailable. -/
def statsEffects (a : Args) (e : Env) (i : StageInput) : List Effect :=
  if i.dups then []
  else
    [Effect.checkprintGrep (summary_file a i),
     Effect.reportResult ("Aligned_reads_" ++ i.assembly_identifier)
       (alignedReadsStat e)] ++
    (match e.trimmedReads with
     | none => [Effect.printMsg "Trimmed reads is not reported."]
     | some tr =>
       [Effect.reportResult ("Alignment_rate_" ++ i.assembly_identifier)
         (pyRound2 (alignedReadsStat e * 100 / tr))])

/-- The skip message of lines 313 to 315. -/
def skipMsg (i : StageInput) : String :=
  "No " ++ i.assembly_identifier ++ " index found in "
    ++ dirname i.assembly_bt2 ++ "; skipping."

/-- Shallow embedding of `_align_with_bt2` (lines 143 to 316): returns
the (R1, R2) pair of the next pool together with the trace of effects in
source order. -/
def alignWithBt2 (a : Args) (t : Tools) (e : Env) (i : StageInput) :
    (String × String) × List Effect :=
  if e.fsExists (dirname i.assembly_bt2) then
    let effs :=
      [Effect.timestamp ("### Map to " ++ i.assembly_identifier),
       Effect.makeDir (sub_outdir a i)] ++
      plumbingEffects a e i ++
      [Effect.makeTempDir (sub_outdir a i) e.tempdir,
       Effect.cleanAdd e.tempdir] ++
      runEffects a t e i ++
      [Effect.cleanAdd (out_fastq_tmp a i)] ++
      statsEffects a e i
    if i.paired then ((out_fastq_r1 a i, out_fastq_r2 a i), effs)
    else ((out_fastq_tmp a i, ""), effs)
  else
    ((i.unmap_fq1, i.unmap_fq2), [Effect.printMsg (skipMsg i)])

/-- The bowtie2 index directory of an assembly, as `_check_bowtie2_index`
observes it: `dirExists` is whether rgc.get_asset succeeds under its
check_exist=os.path.isdir test; `entries` is os.listdir of the directory;
`files` is the plain-file list from os.walk; `size f` is the byte size
of file `f` in the directory. -/
structure IndexDir where
  dirExists : Bool
  entries : List String
  files : List String
  size : String → Nat

/-- Lines 352 to 353: the small-index suffix family. -/
def smallSuffixes : List String :=
  [".1.bt2", ".2.bt2", ".3.bt2", ".4.bt2", ".rev.1.bt2", ".rev.2.bt2"]

/-- Lines 356 to 357: the large-index suffix family. -/
def largeSuffixes : List String :=
  [".1.bt2l", ".2.bt2l", ".3.bt2l", ".4.bt2l", ".rev.1.bt2l", ".rev.2.bt2l"]

/-- Lines 350 to 361: pick the small family when any file name ends in
bt2, else the large family when any ends in bt2l, else none. -/
def indexSuffixes (files : List String) : Option (List String) :=
  if files.any (fun f => strEndsWith f "bt2") then some smallSuffixes
  else if files.any (fun f => strEndsWith f "bt2l") then some largeSuffixes
  else none

/-- Line 363: the expected index file names. -/
def btExpected (g : String) (suffixes : List String) : List String :=
  suffixes.map (fun s => g ++ s)

/-- Line 364: the files matching any expected name as a substring. -/
def btPresent (files expected : List String) : List String :=
  files.filter (fun f => expected.any (fun s => strContains f s))

/-- Line 380: the files containing the reference fasta name. -/
def faFiles (files : List String) (g : String) : List String :=
  files.filter (fun f => strContains f (g ++ ".fa"))

/-- Shallow embedding of `_check_bowtie2_index` (lines 319 to 388); each
pm.fail_pipeline call becomes an error value that aborts the check. -/
def checkBowtie2Index (d : IndexDir) (g : String) : Except String Unit :=
  if !d.dirExists then
    Except.error "could not obtain the bowtie2 asset path"
  else if d.entries.isEmpty then
    Except.error "does not contain any files"
  else
    match indexSuffixes d.files with
    | none => Except.error "does not contain any bowtie2 index files"
    | some suffixes =>
      let expected := btExpected g suffixes
      let present := btPresent d.files expected
      let missing := expected.filter (fun s => !present.contains s)
      if !missing.isEmpty then
        Except.error "the bowtie2 index is missing files"
      else if present.any (fun f => d.size f = 0) then
        Except.error "a bowtie2 index file is empty"
      else if (faFiles d.files g).isEmpty then
        Except.error "could not find the reference fasta"
      else if (faFiles d.files g).any (fun f => d.size f = 0) then
        Except.error "the reference fasta is empty"
      else Except.ok ()

/-- Whether an effect is a pm.run dispatch. -/
def isRun : Effect → Bool
  | Effect.run _ _ _ => true
  | _ => false

/-- Whether an effect is a blocking pm.run dispatch. -/
def isWaitRun : Effect → Bool
  | Effect.run _ _ true => true
  | _ => false

/-- Modelled from the spec: the subprocess runner (the pypiper
PipelineManager, an external collaborator outside this repository) "can
execute a command, wait for or not wait for completion"; per section 4.3
a non-blocking dispatch is awaited when a later blocking run call occurs
before the stage ends ("after the aligner completes, the filter's
completion is awaited before the stage is considered done").  This
predicate holds of a trace in which every non-blocking dispatch is
followed by some blocking dispatch. -/
def dispatchesAwaited : List Effect → Bool
  | [] => true
  | Effect.run _ _ false :: rest => rest.any isWaitRun && dispatchesAwaited rest
  | _ :: rest => dispatchesAwaited rest

/-! Concrete fixtures used by witnesses and counterexamples. -/

/-- A default run configuration: keep_intermediate off. -/
def cexArgs : Args where
  genome_assembly := "hg38"
  sample_name := "test"
  keep := false

/-- A run configuration with retention of prealignment BAMs requested. -/
def cexArgsKeep : Args where
  genome_assembly := "hg38"
  sample_name := "test"
  keep := true

/-- Plain tool names. -/
def cexTools : Tools where
  perl := "perl"
  bowtie2 := "bowtie2"
  samtools := "samtools"

/-- A world where every path exists, the summary reports 10 reads
aligned exactly once, and upstream reported 100 trimmed reads. -/
def cexEnv : Env where
  fsExists := fun _ => true
  tempdir := "/out/prealignments/tmpq"
  cores := 1
  pipelineDir := "/pipe"
  alignExactLine := some 10
  trimmedReads := some 100

/-- A world where the decoy index directory is absent. -/
def cexEnvSkip : Env where
  fsExists := fun _ => false
  tempdir := "/out/prealignments/tmpq"
  cores := 1
  pipelineDir := "/pipe"
  alignExactLine := some 10
  trimmedReads := some 100

/-- A world whose aligner summary has no aligned-exactly-once line. -/
def cexEnvNoLine : Env where
  fsExists := fun _ => true
  tempdir := "/out/prealignments/tmpq"
  cores := 1
  pipelineDir := "/pipe"
  alignExactLine := none
  trimmedReads := some 100

/-- A world where the Trimmed_reads statistic is unavailable. -/
def cexEnvNoTrim : Env where
  fsExists := fun _ => true
  tempdir := "/out/prealignments/tmpq"
  cores := 1
  pipelineDir := "/pipe"
  alignExactLine := some 10
  trimmedReads := none

/-- A single-end stage against a chrM decoy. -/
def cexInpSE : StageInput where
  paired := false
  useFIFO := true
  unmap_fq1 := "/fq/r1.fq"
  unmap_fq2 := ""
  assembly_identifier := "chrM"
  assembly_bt2 := "/gen/chrM/bowtie2/chrM"
  outfolder := "/out"
  aligndir := some "prealignments"
  bt2_opts_txt := none
  dups := false

/-- A paired-end stage against a chrM decoy, FIFOs enabled. -/
def cexInpPE : StageInput where
  paired := true
  useFIFO := true
  unmap_fq1 := "/fq/r1.fq"
  unmap_fq2 := "/fq/r2.fq"
  assembly_identifier := "chrM"
  assembly_bt2 := "/gen/chrM/bowtie2/chrM"
  outfolder := "/out"
  aligndir := some "prealignments"
  bt2_opts_txt := none
  dups := false

/-- A paired-end stage against a chrM decoy with FIFOs disabled. -/
def cexInpPEnoFifo : StageInput where
  paired := true
  useFIFO := false
  unmap_fq1 := "/fq/r1.fq"
  unmap_fq2 := "/fq/r2.fq"
  assembly_identifier := "chrM"
  assembly_bt2 := "/gen/chrM/bowtie2/chrM"
  outfolder := "/out"
  aligndir := some "prealignments"
  bt2_opts_txt := none
  dups := false

/-- A complete small-variant bowtie2 index directory for hg38. -/
def cexIndexDir : IndexDir where
  dirExists := true
  entries := ["hg38.1.bt2", "hg38.2.bt2", "hg38.3.bt2", "hg38.4.bt2",
    "hg38.rev.1.bt2", "hg38.rev.2.bt2", "hg38.fa"]
  files := ["hg38.1.bt2", "hg38.2.bt2", "hg38.3.bt2", "hg38.4.bt2",
    "hg38.rev.1.bt2", "hg38.rev.2.bt2", "hg38.fa"]
  size := fun _ => 5

/-! Helper lemmas. -/

/-- The reported aligned-read figure is twice the summary-line count,
whether or not the line is present. -/
theorem alignedReadsStat_eq (e : Env) :
    alignedReadsStat e = alignExactCount e * 2 := by
  unfold alignedReadsStat alignExactCount
  cases e.alignExactLine <;> simp

/-- Rounding an integer changes nothing. -/
theorem roundHalfEven_intCast (n : ℤ) : roundHalfEven (n : ℚ) = n := by
  unfold roundHalfEven ratFloor
  norm_num

/-- Rounding to two decimals of a rational that is an integer multiple
of one hundredth. -/
theorem pyRound2_of_mul_int (q : ℚ) (n : ℤ) (h : q * 100 = (n : ℚ)) :
    pyRound2 q = (n : ℚ) / 100 := by
  unfold pyRound2
  rw [h, roundHalfEven_intCast]


/-! Claim theorems. -/

/-- Claim C2: when the decoy index directory does not exist, the stage
is a no-op: it returns exactly the input pool, its only effect is the
printed skip message, and it dispatches no command, reports no statistic
and creates no file. -/
theorem missing_index_stage_is_noop (a : Args) (t : Tools) (e : Env)
    (i : StageInput) (h : e.fsExists (dirname i.assembly_bt2) = false) :
    alignWithBt2 a t e i =
      ((i.unmap_fq1, i.unmap_fq2), [Effect.printMsg (skipMsg i)]) := by
  simp [alignWithBt2, h]

theorem missing_index_stage_is_noop_witness :
    alignWithBt2 cexArgs cexTools cexEnvSkip cexInpPE =
      ((cexInpPE.unmap_fq1, cexInpPE.unmap_fq2),
       [Effect.printMsg (skipMsg cexInpPE)]) :=
  missing_index_stage_is_noop cexArgs cexTools cexEnvSkip cexInpPE rfl

/-- Claim C7: a single-end stage that runs skips pairing
re-synchronization entirely: it returns the aligner unaligned-output
path as R1 and the empty string as R2, and its only dispatch is the
aligner command itself, with no pairing-filter dispatch. -/
theorem single_end_skips_pairing (a : Args) (t : Tools) (e : Env)
    (i : StageInput) (hidx : e.fsExists (dirname i.assembly_bt2) = true)
    (hse : i.paired = false) :
    (alignWithBt2 a t e i).1 = (out_fastq_tmp a i, "") ∧
    (alignWithBt2 a t e i).2.filter isRun =
      [Effect.run [bt2cmd a t e i]
        [if a.keep then mapped_bam a i else out_fastq_tmp_gz a i] true] := by
  cases hk : a.keep <;>
  cases hd : i.dups <;>
  rcases htr : e.trimmedReads with _ | tr <;>
  simp [alignWithBt2, hidx, hse, hk, hd, htr, plumbingEffects, runEffects,
    statsEffects, fifoSelected, isRun]

theorem single_end_skips_pairing_witness :
    (alignWithBt2 cexArgs cexTools cexEnv cexInpSE).1 =
      (out_fastq_tmp cexArgs cexInpSE, "") ∧
    (alignWithBt2 cexArgs cexTools cexEnv cexInpSE).2.filter isRun =
      [Effect.run [bt2cmd cexArgs cexTools cexEnv cexInpSE]
        [if cexArgs.keep then mapped_bam cexArgs cexInpSE
         else out_fastq_tmp_gz cexArgs cexInpSE] true] :=
  single_end_skips_pairing cexArgs cexTools cexEnv cexInpSE rfl rfl



theorem report_keys_ne (s : String) :
    ("Aligned_reads_" ++ s) ≠ ("Alignment_rate_" ++ s) := by
  intro h
  have h2 := congrArg String.length h
  simp only [String.length_append] at h2
  have hl : ("Aligned_reads_".length : Nat) = 14 := by decide
  have hr : ("Alignment_rate_".length : Nat) = 15 := by decide
  rw [hl, hr] at h2
  omega

/-- Claim C8: when the aligner summary has no aligned-exactly-once
line, a non-dups stage reports an aligned-read count of zero and
completes normally, returning the usual next pool. -/
theorem missing_summary_line_reports_zero (a : Args) (t : Tools) (e : Env)
    (i : StageInput) (hidx : e.fsExists (dirname i.assembly_bt2) = true)
    (hd : i.dups = false) (hline : e.alignExactLine = none) :
    Effect.reportResult ("Aligned_reads_" ++ i.assembly_identifier) 0
      ∈ (alignWithBt2 a t e i).2 ∧
    (alignWithBt2 a t e i).1 =
      (if i.paired then (out_fastq_r1 a i, out_fastq_r2 a i)
       else (out_fastq_tmp a i, "")) := by
  rcases htr : e.trimmedReads with _ | tr <;>
  cases hp : i.paired <;>
  simp [alignWithBt2, hidx, hd, hline, htr, hp, statsEffects,
    alignedReadsStat]

theorem missing_summary_line_reports_zero_witness :
    Effect.reportResult ("Aligned_reads_" ++ cexInpSE.assembly_identifier) 0
      ∈ (alignWithBt2 cexArgs cexTools cexEnvNoLine cexInpSE).2 ∧
    (alignWithBt2 cexArgs cexTools cexEnvNoLine cexInpSE).1 =
      (if cexInpSE.paired then
        (out_fastq_r1 cexArgs cexInpSE, out_fastq_r2 cexArgs cexInpSE)
       else (out_fastq_tmp cexArgs cexInpSE, "")) :=
  missing_summary_line_reports_zero cexArgs cexTools cexEnvNoLine cexInpSE
    rfl rfl rfl

/-- Claim C9: when the Trimmed_reads statistic is unavailable, a
non-dups stage reports no Alignment_rate statistic at all (no value is
recorded under that key) and execution continues with a printed note. -/
theorem missing_trimmed_reads_omits_rate (a : Args) (t : Tools) (e : Env)
    (i : StageInput) (hidx : e.fsExists (dirname i.assembly_bt2) = true)
    (hd : i.dups = false) (htr : e.trimmedReads = none) :
    (∀ v : ℚ,
      Effect.reportResult ("Alignment_rate_" ++ i.assembly_identifier) v
        ∉ (alignWithBt2 a t e i).2) ∧
    Effect.printMsg "Trimmed reads is not reported."
      ∈ (alignWithBt2 a t e i).2 := by
  constructor
  · intro v
    cases hp : i.paired <;> cases hk : a.keep <;> cases hf : i.useFIFO <;>
    simp [alignWithBt2, hidx, hd, htr, hp, hk, hf, statsEffects,
      plumbingEffects, runEffects, fifoSelected,
      (report_keys_ne i.assembly_identifier).symm]
  · cases hp : i.paired <;>
    simp [alignWithBt2, hidx, hd, htr, hp, statsEffects]

theorem missing_trimmed_reads_omits_rate_witness :
    (∀ v : ℚ,
      Effect.reportResult ("Alignment_rate_" ++ cexInpSE.assembly_identifier) v
        ∉ (alignWithBt2 cexArgs cexTools cexEnvNoTrim cexInpSE).2) ∧
    Effect.printMsg "Trimmed reads is not reported."
      ∈ (alignWithBt2 cexArgs cexTools cexEnvNoTrim cexInpSE).2 :=
  missing_trimmed_reads_omits_rate cexArgs cexTools cexEnvNoTrim cexInpSE
    rfl rfl rfl



/-- Claim C1 (amended): for every stage that runs, is not a dups stage
and has the Trimmed_reads statistic available, the reported alignment
rate equals (aligned-exactly-once count × 2) / trimmed_read_count × 100
rounded to two decimal places, for single-end as well as paired input:
the source doubles the count unconditionally. -/
theorem alignment_rate_always_doubles (a : Args) (t : Tools) (e : Env)
    (i : StageInput) (tr : ℚ)
    (hidx : e.fsExists (dirname i.assembly_bt2) = true)
    (hd : i.dups = false) (htr : e.trimmedReads = some tr) :
    Effect.reportResult ("Alignment_rate_" ++ i.assembly_identifier)
        (pyRound2 (alignExactCount e * 2 / tr * 100))
      ∈ (alignWithBt2 a t e i).2 := by
  have harg : alignExactCount e * 2 / tr * 100 = alignedReadsStat e * 100 / tr := by
    rw [alignedReadsStat_eq, div_mul_eq_mul_div]
  rw [harg]
  cases hp : i.paired <;>
  simp [alignWithBt2, hidx, hd, htr, hp, statsEffects]

theorem alignment_rate_always_doubles_witness :
    Effect.reportResult ("Alignment_rate_" ++ cexInpSE.assembly_identifier)
        (pyRound2 (alignExactCount cexEnv * 2 / 100 * 100))
      ∈ (alignWithBt2 cexArgs cexTools cexEnv cexInpSE).2 :=
  alignment_rate_always_doubles cexArgs cexTools cexEnv cexInpSE 100 rfl rfl rfl

/-- Claim C1 (counterexample): on a single-end stage with 10 reads
aligned exactly once and 100 trimmed reads, the claim as stated (mate
multiplier 1 for single-end) predicts a reported rate of
(10 × 1) / 100 × 100 = 10, but the code reports 20, because the
doubling at source line 286 does not depend on pairedness. -/
theorem alignment_rate_multiplier_cex :
    Effect.reportResult "Alignment_rate_chrM"
        (pyRound2 ((10 : ℚ) * 1 / 100 * 100))
      ∉ (alignWithBt2 cexArgs cexTools cexEnv cexInpSE).2 ∧
    Effect.reportResult "Alignment_rate_chrM" 20
      ∈ (alignWithBt2 cexArgs cexTools cexEnv cexInpSE).2 ∧
    cexInpSE.paired = false ∧ cexEnv.alignExactLine = some 10 ∧
    cexEnv.trimmedReads = some 100 := by
  have hstat : alignedReadsStat cexEnv = 20 := by
    simp [alignedReadsStat, cexEnv]
    norm_num
  have h1 : pyRound2 ((10 : ℚ) * 1 / 100 * 100) = 10 := by
    rw [pyRound2_of_mul_int _ 1000 (by norm_num)]
    norm_num
  have h20 : pyRound2 ((20 : ℚ) * 100 / 100) = 20 := by
    rw [pyRound2_of_mul_int _ 2000 (by norm_num)]
    norm_num
  have h20a : pyRound2 ((20 : ℚ)) = 20 := by
    rw [pyRound2_of_mul_int _ 2000 (by norm_num)]
    norm_num
  have hfs : ∀ p, cexEnv.fsExists p = true := fun _ => rfl
  have htrr : cexEnv.trimmedReads = some 100 := rfl
  have hne : (10 : ℚ) ≠ 20 := by norm_num
  rw [h1]
  refine ⟨?_, ?_, rfl, rfl, rfl⟩
  · simp [alignWithBt2, cexArgs, cexInpSE, statsEffects,
      plumbingEffects, runEffects, fifoSelected, hfs, htrr, hstat,
      h20, h20a, hne]
  · simp [alignWithBt2, cexArgs, cexInpSE, statsEffects,
      plumbingEffects, runEffects, fifoSelected, hfs, htrr, hstat,
      h20, h20a]



/-- Helper lemma: the pm.run dispatch trace of a FIFO-strategy stage is
stale-pipe removal aside, mkfifo, then the filter without waiting, then
the aligner with waiting. -/
theorem runTrace_fifo (a : Args) (t : Tools) (e : Env) (i : StageInput)
    (hidx : e.fsExists (dirname i.assembly_bt2) = true)
    (hc : i.useFIFO = true ∧ i.paired = true ∧ a.keep = false) :
    (alignWithBt2 a t e i).2.filter isRun =
      [Effect.run ["mkfifo " ++ out_fastq_tmp a i] [out_fastq_tmp a i] true,
       Effect.run [filter_pair a t e i]
         [summary_file a i, out_fastq_r2_gz a i] false,
       Effect.run [bt2cmd a t e i]
         [summary_file a i, out_fastq_r2_gz a i] true] := by
  obtain ⟨hf, hp, hk⟩ := hc
  rcases htr : e.trimmedReads with _ | tr <;>
  cases hd : i.dups <;>
  cases hex : e.fsExists (out_fastq_tmp a i) <;>
  simp [alignWithBt2, hidx, hf, hp, hk, hd, htr, hex, plumbingEffects,
    runEffects, statsEffects, fifoSelected, isRun]

/-- Claim C3: for every stage that runs, the FIFO strategy (mkfifo
dispatch, filter launched non-blocking before the aligner) is in force
exactly when useFIFO ∧ paired ∧ ¬ keep; in every other case the
unaligned-read sink is an ordinary _unmap .fq file and the only
dispatches are serial ones in which the pairing filter, when paired,
runs strictly after the aligner command completes. -/
theorem strategy_selection (a : Args) (t : Tools) (e : Env) (i : StageInput)
    (hidx : e.fsExists (dirname i.assembly_bt2) = true) :
    ((i.useFIFO = true ∧ i.paired = true ∧ a.keep = false) →
      (alignWithBt2 a t e i).2.filter isRun =
        [Effect.run ["mkfifo " ++ out_fastq_tmp a i] [out_fastq_tmp a i] true,
         Effect.run [filter_pair a t e i]
           [summary_file a i, out_fastq_r2_gz a i] false,
         Effect.run [bt2cmd a t e i]
           [summary_file a i, out_fastq_r2_gz a i] true]) ∧
    (¬(i.useFIFO = true ∧ i.paired = true ∧ a.keep = false) →
      out_fastq_tmp a i =
        out_fastq_pre a i ++
          (if i.dups then "_unmap_dups.fq" else "_unmap.fq") ∧
      (alignWithBt2 a t e i).2.filter isRun =
        (if i.paired then
          [Effect.run [bt2cmd a t e i, filter_pair a t e i]
            [mapped_bam a i] true]
         else if a.keep then
          [Effect.run [bt2cmd a t e i] [mapped_bam a i] true]
         else
          [Effect.run [bt2cmd a t e i] [out_fastq_tmp_gz a i] true])) := by
  constructor
  · exact fun hc => runTrace_fifo a t e i hidx hc
  · intro hnc
    have hfsel : fifoSelected a i = false := by
      rcases Bool.eq_false_or_eq_true (fifoSelected a i) with h | h
      · exact absurd
          (by simpa [fifoSelected, Bool.and_eq_true, Bool.not_eq_true',
            and_assoc] using h)
          hnc
      · exact h
    refine ⟨by simp [out_fastq_tmp, hfsel], ?_⟩
    rcases htr : e.trimmedReads with _ | tr <;> cases hd : i.dups <;>
    cases hu : i.useFIFO <;> cases hp : i.paired <;> cases hk : a.keep <;>
    simp_all [alignWithBt2, hidx, plumbingEffects, runEffects, statsEffects,
      fifoSelected, isRun]

theorem strategy_selection_witness :
    (alignWithBt2 cexArgs cexTools cexEnv cexInpPEnoFifo).2.filter isRun =
      [Effect.run [bt2cmd cexArgs cexTools cexEnv cexInpPEnoFifo,
         filter_pair cexArgs cexTools cexEnv cexInpPEnoFifo]
        [mapped_bam cexArgs cexInpPEnoFifo] true] := by
  have h := (strategy_selection cexArgs cexTools cexEnv cexInpPEnoFifo rfl).2
    (by intro hc; exact absurd hc.1 (by decide))
  simpa using h.2

/-- Claim C4: in a FIFO-strategy stage, the pairing filter is
dispatched first (non-blocking), the aligner second (blocking), and
every non-blocking dispatch in the trace is followed by a blocking one,
so the filter's completion is awaited before the stage ends, per the
runner contract modelled by dispatchesAwaited. -/
theorem fifo_dispatch_order (a : Args) (t : Tools) (e : Env) (i : StageInput)
    (hidx : e.fsExists (dirname i.assembly_bt2) = true)
    (hf : i.useFIFO = true) (hp : i.paired = true) (hk : a.keep = false) :
    (alignWithBt2 a t e i).2.filter isRun =
      [Effect.run ["mkfifo " ++ out_fastq_tmp a i] [out_fastq_tmp a i] true,
       Effect.run [filter_pair a t e i]
         [summary_file a i, out_fastq_r2_gz a i] false,
       Effect.run [bt2cmd a t e i]
         [summary_file a i, out_fastq_r2_gz a i] true] ∧
    dispatchesAwaited (alignWithBt2 a t e i).2 = true := by
  refine ⟨runTrace_fifo a t e i hidx ⟨hf, hp, hk⟩, ?_⟩
  rcases htr : e.trimmedReads with _ | tr <;>
  cases hd : i.dups <;>
  cases hex : e.fsExists (out_fastq_tmp a i) <;>
  simp [alignWithBt2, hidx, hf, hp, hk, hd, htr, hex, plumbingEffects,
    runEffects, statsEffects, fifoSelected, dispatchesAwaited, isWaitRun]

theorem fifo_dispatch_order_witness :
    (alignWithBt2 cexArgs cexTools cexEnv cexInpPE).2.filter isRun =
      [Effect.run ["mkfifo " ++ out_fastq_tmp cexArgs cexInpPE]
        [out_fastq_tmp cexArgs cexInpPE] true,
       Effect.run [filter_pair cexArgs cexTools cexEnv cexInpPE]
         [summary_file cexArgs cexInpPE, out_fastq_r2_gz cexArgs cexInpPE]
         false,
       Effect.run [bt2cmd cexArgs cexTools cexEnv cexInpPE]
         [summary_file cexArgs cexInpPE, out_fastq_r2_gz cexArgs cexInpPE]
         true] ∧
    dispatchesAwaited (alignWithBt2 cexArgs cexTools cexEnv cexInpPE).2 =
      true :=
  fifo_dispatch_order cexArgs cexTools cexEnv cexInpPE rfl rfl rfl rfl



/-- Claim C5 (counterexample): with retention off (keep = false) the
aligner command discards the mapped stream to /dev/null and contains no
sort step at all, contrary to the claim that the mapped output is piped
into a sort step in that case. -/
theorem mapped_stream_sort_cex :
    cexArgs.keep = false ∧
    strContains (bt2cmd cexArgs cexTools cexEnv cexInpPE) "/dev/null" = true ∧
    strContains (bt2cmd cexArgs cexTools cexEnv cexInpPE)
      (cexTools.samtools ++ " sort") = false ∧
    strContains (bt2cmd cexArgs cexTools cexEnv cexInpPE) "samtools"
      = false := by
  decide

/-- Claim C5 (amended): when retention of mapped decoy reads is not
requested the mapped output is discarded to /dev/null (no sort step, no
file); when retention is requested the mapped stream is piped through
samtools view and sort and materialized to the sorted alignment file. -/
theorem mapped_stream_handling (a : Args) (t : Tools) (e : Env)
    (i : StageInput) :
    (a.keep = false →
      bt2cmd a t e i =
        (bt2base a t e i ++ " > /dev/null") ++ ") 2>" ++ summary_file a i) ∧
    (a.keep = true →
      bt2cmd a t e i =
        (bt2base a t e i
          ++ " | " ++ t.samtools ++ " view -bS - -@ 1"
          ++ " | " ++ t.samtools ++ " sort - -@ 1"
          ++ " -T " ++ e.tempdir
          ++ " -o " ++ mapped_bam a i) ++ ") 2>" ++ summary_file a i) := by
  cases hk : a.keep <;> simp [bt2cmd, hk]

theorem mapped_stream_handling_witness :
    bt2cmd cexArgs cexTools cexEnv cexInpPE =
      (bt2base cexArgs cexTools cexEnv cexInpPE ++ " > /dev/null")
        ++ ") 2>" ++ summary_file cexArgs cexInpPE :=
  (mapped_stream_handling cexArgs cexTools cexEnv cexInpPE).1 rfl

/-- Claim C10: the constructed aligner command feeds only the R1 file
to the aligner via -U and is independent of unmap_fq2; for a paired
stage that runs, the R2 side of the returned pool is the pairing filter
output file, and the filter command is the one that references the
original mates and that output. -/
theorem aligner_reads_only_r1 (a : Args) (t : Tools) (e : Env)
    (i : StageInput) :
    (∀ fq2 : String,
      bt2cmd a t e { i with unmap_fq2 := fq2 } = bt2cmd a t e i) ∧
    bt2base a t e i =
      "(" ++ t.bowtie2 ++ " -p " ++ toString e.cores
        ++ " " ++ bt2OptsText i.bt2_opts_txt
        ++ " -x " ++ i.assembly_bt2
        ++ " --rg-id " ++ a.sample_name
        ++ " -U " ++ i.unmap_fq1
        ++ " --un " ++ out_fastq_tmp a i ∧
    (e.fsExists (dirname i.assembly_bt2) = true → i.paired = true →
      (alignWithBt2 a t e i).1.2 = out_fastq_r2 a i ∧
      filter_pair a t e i =
        buildCommand [t.perl, tool_path e "filter_paired_fq.pl",
          out_fastq_tmp a i, i.unmap_fq1, i.unmap_fq2,
          out_fastq_r1 a i, out_fastq_r2 a i]) := by
  refine ⟨fun fq2 => rfl, rfl, fun hidx hp => ⟨?_, rfl⟩⟩
  simp [alignWithBt2, hidx, hp]

theorem aligner_reads_only_r1_witness :
    (alignWithBt2 cexArgs cexTools cexEnv cexInpPE).1.2 =
      out_fastq_r2 cexArgs cexInpPE :=
  ((aligner_reads_only_r1 cexArgs cexTools cexEnv cexInpPE).2.2 rfl rfl).1



/-- Claim C6: the index check succeeds exactly when the index
directory exists and is non-empty, an index file family is detected,
every expected family member is present, every matched index file is
non-empty, and the reference fasta is present and non-empty; each single
violation makes it fail. -/
theorem index_check_iff (d : IndexDir) (g : String) :
    checkBowtie2Index d g = Except.ok () ↔
      (d.dirExists = true ∧ d.entries ≠ [] ∧
       ∃ suffixes, indexSuffixes d.files = some suffixes ∧
         (∀ s ∈ btExpected g suffixes,
            s ∈ btPresent d.files (btExpected g suffixes)) ∧
         (∀ f ∈ btPresent d.files (btExpected g suffixes), d.size f ≠ 0) ∧
         faFiles d.files g ≠ [] ∧
         (∀ f ∈ faFiles d.files g, d.size f ≠ 0)) := by
  cases hd : d.dirExists <;>
  rcases hs : indexSuffixes d.files with _ | suffixes <;>
  simp [checkBowtie2Index, hd, hs, List.isEmpty_iff, List.filter_eq_nil_iff,
    List.any_eq_true, decide_eq_true_eq, List.elem_iff] <;>
  split_ifs <;> simp_all

theorem index_check_iff_witness :
    checkBowtie2Index cexIndexDir "hg38" = Except.ok () :=
  (index_check_iff cexIndexDir "hg38").mpr
    ⟨rfl, by decide, smallSuffixes, by decide, by decide, by decide,
     by decide, by decide⟩

end Peppro
